import Mathlib

/-!
Verification development for the Zea-Watch identity / ownership / share-link
subsystem. The definitions below are a shallow embedding of:
  - frontend/utils/api.ts (analyzeImage confidence normalization,
    deleteHistoryItem, migrateGuestAnalyses),
  - the share page (fetchSharedAnalysis, handleShare),
  - the Supabase schema and row-level-security policies
    (analyses, shared_analyses, predictions tables).
Machine numbers are modelled as Rat / Int; fallible calls return an explicit
success flag or an outcome type; the database tables are lists of rows and
RLS policies are Bool predicates evaluated for the acting principal.
-/

namespace ZeaWatch

/-- Confidence normalization used by analyzeImage and migrateGuestAnalyses in
frontend/utils/api.ts: `confidence <= 1 ? confidence * 100 : confidence`. -/
def normConfidence (c : ℚ) : ℚ := if c ≤ 1 then c * 100 else c

/-- One entry of the client guest ledger (localStorage key
zeawatch_guest_analyses), with the fields the code reads during migration.
Optional fields are nullable in the stored JSON. -/
structure GuestAnalysis where
  disease : String
  confidence : ℚ
  description : String
  recommendation : String
  image_url : Option String
  latitude : Option ℚ
  longitude : Option ℚ
  field_name : Option String
  location_accuracy : Option String
  created_at : Option Int
deriving DecidableEq

/-- The column payload of one `analyses` row as inserted by the client
(the object literal built in migrateGuestAnalyses / analyzeImage).
`user_id` is nullable: the schema declares the column without NOT NULL. -/
structure AnalysisData where
  user_id : Option Nat
  disease : String
  confidence : ℚ
  description : String
  recommendation : String
  image_url : Option String
  latitude : Option ℚ
  longitude : Option ℚ
  field_name : Option String
  location_accuracy : Option String
  created_at : Int
deriving DecidableEq

/-- A persisted `analyses` row: the payload plus the server-assigned id. -/
structure AnalysisRow extends AnalysisData where
  id : Nat
deriving DecidableEq

/-- Server-side insertion into the `analyses` table: rows are appended and
receive fresh ids (gen_random_uuid in the schema, modelled as sequential). -/
def insertAnalyses (tbl : List AnalysisRow) (xs : List AnalysisData) :
    List AnalysisRow :=
  tbl ++ xs.enum.map (fun p => { toAnalysisData := p.2, id := tbl.length + p.1 })

/-- Client plus server state touched by migrateGuestAnalyses: the guest
ledger in localStorage and the `analyses` table. -/
structure MigState where
  ledger : List GuestAnalysis
  analyses : List AnalysisRow
deriving DecidableEq

/-- The row payload migrateGuestAnalyses builds for one guest item
(api.ts lines 327-345): owner set to the new user id, confidence
re-normalized, created_at defaulted to the current time when absent. -/
def toInsertRow (userId : Nat) (now : Int) (g : GuestAnalysis) : AnalysisData :=
  { user_id := some userId
    disease := g.disease
    confidence := normConfidence g.confidence
    description := g.description
    recommendation := g.recommendation
    image_url := g.image_url
    latitude := g.latitude
    longitude := g.longitude
    field_name := g.field_name
    location_accuracy := g.location_accuracy
    created_at := g.created_at.getD now }

/-- migrateGuestAnalyses (api.ts lines 318-360): reads the guest ledger,
returns immediately when it is empty, otherwise performs ONE bulk
`supabase.from(analyses).insert(list)` call; on error it throws without
touching the ledger, on success it clears the ledger. `insertOk` models the
outcome of that single bulk insert; the returned Bool is true when the call
returns normally (the source returns Promise void, so there is no report). -/
def migrateGuestAnalyses (userId : Nat) (now : Int) (insertOk : Bool)
    (st : MigState) : MigState × Bool :=
  if st.ledger = [] then (st, true)
  else if insertOk then
    ({ ledger := [],
       analyses := insertAnalyses st.analyses (st.ledger.map (toInsertRow userId now)) },
     true)
  else (st, false)

/-- Sample guest record used for concrete evaluations. -/
def g0 : GuestAnalysis :=
  { disease := "Common Rust", confidence := 90, description := "rust lesions"
    recommendation := "apply fungicide", image_url := none, latitude := none
    longitude := none, field_name := none, location_accuracy := none
    created_at := some 0 }

/-- Second sample guest record. -/
def g1 : GuestAnalysis := { g0 with disease := "Northern Leaf Blight" }

/-- A row of the `shared_analyses` table (schema: analysis_id, share_token
NOT NULL UNIQUE, expires_at nullable, created_at). -/
structure ShareRow where
  analysis_id : Nat
  share_token : String
  expires_at : Option Int
  created_at : Int
deriving DecidableEq

/-- The RLS policy `Public can view valid shared analyses by token` on
shared_analyses: `share_token IS NOT NULL AND (expires_at IS NULL OR
expires_at > NOW())`. The token column is NOT NULL, so only the expiry
disjunction remains. -/
def shareVisible (now : Int) (s : ShareRow) : Bool :=
  match s.expires_at with
  | none => true
  | some e => decide (now < e)

/-- The RLS policy `Public can view shared analyses` on the `analyses`
table, which is the only SELECT policy that can hold for an anonymous
caller (the own-rows policy compares auth.uid(), which is NULL). -/
def analysisPubliclyVisible (shares : List ShareRow) (now : Int)
    (a : AnalysisRow) : Bool :=
  shares.any (fun s => (s.analysis_id == a.id) && shareVisible now s)

/-- Supabase .single(): succeeds exactly when the query returned one row. -/
def singleRow {α : Type} (xs : List α) : Option α :=
  match xs with
  | [x] => some x
  | _ => none

/-- Externally observable outcome of the share page resolution: the error
message put on screen, or the analysis row put into component state. -/
inductive ShareOutcome where
  | failure (msg : String)
  | success (a : AnalysisRow)
deriving DecidableEq

/-- Expiry test used in fetchSharedAnalysis:
`sharedData.expires_at && new Date(sharedData.expires_at) < new Date()`. -/
def pageExpired (now : Int) (s : ShareRow) : Bool :=
  match s.expires_at with
  | none => false
  | some e => decide (e < now)

/-- fetchSharedAnalysis from the share page: looks the token up in
shared_analyses (as an anonymous caller, so the query sees only rows the
public RLS policy admits), re-checks expiry, then fetches the analysis row
by id (again through the anonymous-visible RLS policies). Unknown tokens
and RLS-hidden rows both make .single() fail, yielding the generic
message. -/
def fetchSharedAnalysis (shares : List ShareRow) (analyses : List AnalysisRow)
    (token : String) (now : Int) : ShareOutcome :=
  match singleRow (shares.filter
      (fun s => (s.share_token == token) && shareVisible now s)) with
  | none => .failure "Share link not found or expired"
  | some s =>
    if pageExpired now s then .failure "This share link has expired"
    else
      match singleRow (analyses.filter
          (fun a => (a.id == s.analysis_id) && analysisPubliclyVisible shares now a)) with
      | none => .failure "Analysis not found"
      | some a => .success a

/-- Milliseconds per day, as in the 30-day literal of handleShare. -/
def msPerDay : Int := 24 * 60 * 60 * 1000

/-- Token construction in handleShare (history page):
`analysis.id + "-" + Date.now() + "-" + Math.random().toString(36).substring(7)`;
`rand` stands for the Math.random suffix. -/
def genToken (analysisId : Nat) (now : Int) (rand : String) : String :=
  toString analysisId ++ "-" ++ toString now ++ "-" ++ rand

/-- handleShare from the history page: generates one token, attempts one
insert into shared_analyses with expires_at = now + 30 days; the UNIQUE
constraint on share_token rejects a colliding insert, in which case the
function reports the error (alert) and returns without any retry. Returns
the new table and the created token (none on failure). -/
def handleShare (a : AnalysisRow) (now : Int) (rand : String)
    (shares : List ShareRow) : List ShareRow × Option String :=
  let tok := genToken a.id now rand
  if shares.any (fun s => s.share_token == tok) then (shares, none)
  else
    (shares ++ [{ analysis_id := a.id, share_token := tok,
                  expires_at := some (now + 30 * msPerDay), created_at := now }],
     some tok)

/-- Role column of the users table (schema v2). -/
inductive Role where
  | user
  | admin
deriving DecidableEq

/-- The caller identity: anonymous, or authenticated with an id and role. -/
inductive Principal where
  | anonymous
  | authenticated (id : Nat) (role : Role)
deriving DecidableEq

/-- auth.uid() of the acting principal: NULL when anonymous. -/
def authUid : Principal → Option Nat
  | .anonymous => none
  | .authenticated i _ => some i

/-- SQL predicate `auth.uid() = uid` under NULL semantics: false unless
both sides are non-null and equal. -/
def ownsVal (p : Principal) (uid : Option Nat) : Bool :=
  match authUid p, uid with
  | some i, some o => i == o
  | _, _ => false

/-- Record-scoped actions covered by the analyses RLS policies. -/
inductive RecordAction where
  | read
  | update
  | delete
deriving DecidableEq

/-- The access rule the RLS policies on `analyses` enforce for
record-scoped operations: SELECT is allowed for the owner or for anyone
when a valid (unexpired) share exists for the row; UPDATE and DELETE are
allowed for the owner only. No policy mentions a role. -/
def permit (p : Principal) (act : RecordAction) (a : AnalysisRow)
    (shares : List ShareRow) (now : Int) : Bool :=
  match act with
  | .read => ownsVal p a.user_id || analysisPubliclyVisible shares now a
  | .update => ownsVal p a.user_id
  | .delete => ownsVal p a.user_id

/-- The permit rule as the spec words it, for comparison with the policies
in the code: `permit = (principal.role == admin) OR (principal is
Authenticated AND principal.id == record.owner_id)`. -/
def permitSpecRule (p : Principal) (a : AnalysisRow) : Bool :=
  (match p with
   | .authenticated _ r => r == Role.admin
   | .anonymous => false) ||
  ownsVal p a.user_id

/-- deleteHistoryItem (api.ts lines 294-313), authenticated branch: one
DELETE on analyses filtered by both the row id and user_id = auth.uid();
the guest branch edits only localStorage, leaving the table unchanged. -/
def deleteHistoryItem (p : Principal) (idv : Nat) (tbl : List AnalysisRow) :
    List AnalysisRow :=
  match authUid p with
  | some uid => tbl.filter (fun row => !((row.id == idv) && (row.user_id == some uid)))
  | none => tbl

/-- The RLS policy pair on analyses UPDATE: USING (auth.uid() = user_id)
with no WITH CHECK clause, so PostgreSQL applies the same predicate to the
existing row and to the updated row. -/
def analysesUpdateAllowed (p : Principal) (oldRow newRow : AnalysisRow) : Bool :=
  ownsVal p oldRow.user_id && ownsVal p newRow.user_id

/-- The RLS policy on analyses INSERT: WITH CHECK (auth.uid() = user_id). -/
def analysesInsertAllowed (p : Principal) (row : AnalysisRow) : Bool :=
  ownsVal p row.user_id

/-- A row of the `predictions` table (schema v2), with the columns the
ownership claims are about. -/
structure PredictionRow where
  id : Nat
  user_id : Option Nat
  label : String
  confidence : ℚ
  created_at : Int
deriving DecidableEq

/-- Effect on the predictions table of deleting a user: the foreign key
`user_id UUID REFERENCES users(id) ON DELETE SET NULL` clears the owner
column of every row the user owned. -/
def deleteUserPredictions (uid : Nat) (tbl : List PredictionRow) :
    List PredictionRow :=
  tbl.map (fun r => if r.user_id == some uid then { r with user_id := none } else r)

/-- Sample analyses row with a non-null owner, used in concrete evaluations. -/
def a5 : AnalysisRow :=
  { id := 5, user_id := some 7, disease := "Gray Leaf Spot", confidence := 88
    description := "grey spots", recommendation := "rotate crops"
    image_url := none, latitude := none, longitude := none, field_name := none
    location_accuracy := none, created_at := 0 }

/-- Sample analyses row owned by user 2. -/
def row0 : AnalysisRow :=
  { id := 1, user_id := some 2, disease := "Common Rust", confidence := 90
    description := "d", recommendation := "r", image_url := none
    latitude := none, longitude := none, field_name := none
    location_accuracy := none, created_at := 0 }

/-- Sample share row with a null expires_at, created at time 0. -/
def sNull : ShareRow :=
  { analysis_id := 5, share_token := "legacy", expires_at := none, created_at := 0 }

/-- Sample share row for a5 expiring at time 100. -/
def s8 : ShareRow :=
  { analysis_id := 5, share_token := "tok8", expires_at := some 100, created_at := 0 }

/-- Sample analyses row with id 9 for the collision scenario. -/
def a9 : AnalysisRow := { a5 with id := 9 }

/-- Pre-existing share row already holding the token handleShare would
generate for a9 at time 4 with random suffix zzz. -/
def s7 : ShareRow :=
  { analysis_id := 9, share_token := "9-4-zzz", expires_at := none, created_at := 0 }

/-- Sample analyses row owned by user 3. -/
def rW : AnalysisRow := { a5 with user_id := some 3 }

/-- Bool test that a share row carries a non-null expiry that has passed. -/
def shareExpiredBy (now : Int) (s : ShareRow) : Bool :=
  match s.expires_at with
  | none => false
  | some e => decide (e ≤ now)

/-- Share row used to witness the indistinguishability theorem. -/
def sW : ShareRow :=
  { analysis_id := 1, share_token := "t2", expires_at := some 0, created_at := 0 }

/-- Sample predictions row owned by user 3. -/
def q0 : PredictionRow :=
  { id := 1, user_id := some 3, label := "Healthy", confidence := 99 / 100
    created_at := 0 }

/- ========================  C10  ======================== -/

/-- C10 counterexample: normalization is not idempotent on all
confidences c with 0 ≤ c. At c = 1/100 the first normalization yields 1,
which the second normalization rescales again to 100. -/
theorem normConfidence_reapplied_rescales :
    (0 : ℚ) ≤ 1 / 100 ∧
      normConfidence (normConfidence (1 / 100)) ≠ normConfidence (1 / 100) := by
  constructor
  · norm_num
  · norm_num [normConfidence]

/-- C10 (amended): the confidence normalization applied when saving to the
guest ledger and re-applied by migrateGuestAnalyses is idempotent for
every confidence that is 0 or greater than 1/100; only values in the open
interval (0, 1/100] are rescaled again by a second application. -/
theorem normConfidence_idem (c : ℚ) (h : c = 0 ∨ 1 / 100 < c) :
    normConfidence (normConfidence c) = normConfidence c := by
  rcases h with h | h
  · subst h
    norm_num [normConfidence]
  · unfold normConfidence
    split_ifs <;> first | rfl | linarith

/-- C10 witness: the amended idempotence applied at c = 2. -/
theorem normConfidence_idem_witness :
    ((2 : ℚ) = 0 ∨ 1 / 100 < (2 : ℚ)) ∧
      normConfidence (normConfidence 2) = normConfidence 2 :=
  ⟨Or.inr (by norm_num), normConfidence_idem 2 (Or.inr (by norm_num))⟩

/- ========================  C1  ======================== -/

/-- C1 counterexample: presenting the same one-element guest list to
migrateGuestAnalyses twice (the ledger holds [g0] again on the second
call, as after a retry with restored state) makes the analyses table hold
two records derived from g0, so duplicate records are created; the
function also returns no report at all (Promise void in the source). -/
theorem migrate_same_list_twice_creates_duplicates :
    (((migrateGuestAnalyses 1 0 true
          { ledger := [g0],
            analyses := (migrateGuestAnalyses 1 0 true
              { ledger := [g0], analyses := [] }).1.analyses }).1.analyses).filter
        (fun r => decide (r.toAnalysisData = toInsertRow 1 0 g0))).length = 2 := by
  decide

/-- C1 (amended): migrateGuestAnalyses performs no duplicate detection and
returns no accepted/duplicates counts; single-insertion holds only through
the ledger clearing: after a successful call the ledger is empty and the
table has gained exactly one row per ledger item, and a second call on the
resulting state is a no-op. -/
theorem migrate_seq_no_new_rows (u : Nat) (t : Int) (st : MigState) :
    (migrateGuestAnalyses u t true ((migrateGuestAnalyses u t true st).1)).1
        = (migrateGuestAnalyses u t true st).1 ∧
      (migrateGuestAnalyses u t true ((migrateGuestAnalyses u t true st).1)).2 = true ∧
      (migrateGuestAnalyses u t true st).1.ledger = [] ∧
      (migrateGuestAnalyses u t true st).1.analyses
        = insertAnalyses st.analyses (st.ledger.map (toInsertRow u t)) := by
  by_cases h : st.ledger = []
  · simp [migrateGuestAnalyses, h, insertAnalyses]
  · simp [migrateGuestAnalyses, h]

/- ========================  C4  ======================== -/

/-- C4 counterexample: a batch of two items where the storage insert fails
(for instance one bad row) leaves the table with zero rows inserted and the
call throwing: the remaining good item is NOT inserted and nothing is
counted as failed, so one bad item aborts the whole batch. -/
theorem migrate_bulk_failure_aborts_batch :
    (migrateGuestAnalyses 1 0 false { ledger := [g0, g1], analyses := [] }).1.analyses
        = [] ∧
      (migrateGuestAnalyses 1 0 false { ledger := [g0, g1], analyses := [] }).2
        = false := by
  decide

/-- C4 (amended): migration is all-or-nothing, not partial-failure
tolerant: the items are sent in one bulk insert, and when that insert
fails no item of the batch reaches the table, the ledger is left intact
for retry, and the call throws (there is no per-item failed count); the
call only returns normally on failure when the ledger was already empty. -/
theorem migrate_failure_all_or_nothing (u : Nat) (t : Int) (st : MigState) :
    (migrateGuestAnalyses u t false st).1 = st ∧
      ((migrateGuestAnalyses u t false st).2 = true ↔ st.ledger = []) := by
  by_cases h : st.ledger = []
  · simp [migrateGuestAnalyses, h]
  · simp [migrateGuestAnalyses, h]

/- ========================  C6  ======================== -/

/-- C6: the guest ledger is cleared only after the bulk insert succeeded
and every ledger item has its row in the analyses table; contrapositively,
when the insert errors (ok = false) the ledger is untouched, so the
migration can be retried. -/
theorem migrate_clear_only_after_confirm (u : Nat) (t : Int) (ok : Bool)
    (st : MigState)
    (h : (migrateGuestAnalyses u t ok st).1.ledger ≠ st.ledger) :
    ok = true ∧ (migrateGuestAnalyses u t ok st).2 = true ∧
      (migrateGuestAnalyses u t ok st).1.analyses
        = insertAnalyses st.analyses (st.ledger.map (toInsertRow u t)) := by
  by_cases he : st.ledger = []
  · simp [migrateGuestAnalyses, he] at h
  · cases ok with
    | false => simp [migrateGuestAnalyses, he] at h
    | true => simp [migrateGuestAnalyses, he]

/-- C6 witness: the clearing theorem applied at a concrete nonempty
ledger with a successful insert. -/
theorem migrate_clear_only_after_confirm_witness :
    (migrateGuestAnalyses 1 0 true { ledger := [g0], analyses := [] }).1.ledger
        ≠ ({ ledger := [g0], analyses := [] } : MigState).ledger ∧
      (true = true ∧
        (migrateGuestAnalyses 1 0 true { ledger := [g0], analyses := [] }).2 = true ∧
        (migrateGuestAnalyses 1 0 true { ledger := [g0], analyses := [] }).1.analyses
          = insertAnalyses ({ ledger := [g0], analyses := [] } : MigState).analyses
              (({ ledger := [g0], analyses := [] } : MigState).ledger.map
                (toInsertRow 1 0))) :=
  ⟨by decide,
   migrate_clear_only_after_confirm 1 0 true { ledger := [g0], analyses := [] }
     (by decide)⟩

/- ========================  C3  ======================== -/

/-- C3: resolving an unknown token and resolving a known token whose
expiry has passed produce the identical observable outcome, the generic
failure message. The public RLS policy hides expired share rows from the
anonymous query, so both causes make .single() fail the same way and the
separate expired-message branch of the page is unreachable. -/
theorem resolve_unknown_eq_expired (shares : List ShareRow)
    (analyses : List AnalysisRow) (now : Int) (tokU tokE : String)
    (hU : shares.all (fun s => s.share_token != tokU) = true)
    (_hK : shares.any (fun s => s.share_token == tokE) = true)
    (hE : shares.all (fun s => (s.share_token != tokE) || shareExpiredBy now s) = true) :
    fetchSharedAnalysis shares analyses tokU now
        = ShareOutcome.failure "Share link not found or expired" ∧
      fetchSharedAnalysis shares analyses tokE now
        = ShareOutcome.failure "Share link not found or expired" := by
  have hU2 := List.all_eq_true.mp hU
  have hE2 := List.all_eq_true.mp hE
  have h1 : shares.filter
      (fun s => (s.share_token == tokU) && shareVisible now s) = [] := by
    rw [List.filter_eq_nil_iff]
    intro s hs
    have hne := hU2 s hs
    simp only [bne_iff_ne, ne_eq] at hne
    simp only [Bool.and_eq_true, beq_iff_eq, not_and]
    intro heq _
    exact hne heq
  have h2 : shares.filter
      (fun s => (s.share_token == tokE) && shareVisible now s) = [] := by
    rw [List.filter_eq_nil_iff]
    intro s hs
    have hor := hE2 s hs
    simp only [Bool.or_eq_true, bne_iff_ne, ne_eq] at hor
    simp only [Bool.and_eq_true, beq_iff_eq, not_and]
    intro heq
    rcases hor with hor | hor
    · exact absurd heq hor
    · cases hexp : s.expires_at with
      | none => simp [shareExpiredBy, hexp] at hor
      | some e =>
        simp only [shareExpiredBy, hexp, decide_eq_true_eq] at hor
        simp only [shareVisible, hexp, decide_eq_true_eq]
        intro hlt
        omega
  constructor
  · unfold fetchSharedAnalysis
    rw [h1]
    rfl
  · unfold fetchSharedAnalysis
    rw [h2]
    rfl

/-- C3 witness: the indistinguishability theorem at a concrete table with
one share row whose token is t2 and whose expiry 0 has passed at time 5,
queried with the unknown token t1 and the expired token t2. -/
theorem resolve_unknown_eq_expired_witness :
    ([sW].all (fun s => s.share_token != "t1") = true) ∧
      ([sW].any (fun s => s.share_token == "t2") = true) ∧
      ([sW].all (fun s => (s.share_token != "t2") || shareExpiredBy 5 s) = true) ∧
      (fetchSharedAnalysis [sW] [] "t1" 5
          = ShareOutcome.failure "Share link not found or expired" ∧
        fetchSharedAnalysis [sW] [] "t2" 5
          = ShareOutcome.failure "Share link not found or expired") :=
  ⟨by decide, by decide, by decide,
   resolve_unknown_eq_expired [sW] [] 5 "t1" "t2" (by decide) (by decide) (by decide)⟩

/- ========================  C5  ======================== -/

/-- C5 counterexample: a stored share row with a null expires_at resolves
successfully at time 9999999999999 ms, roughly 317 years after its
creation at time 0 — far beyond any finite default lifetime — because the
policy treats a null expiry as valid forever rather than applying a
default. -/
theorem null_expiry_resolves_far_future :
    sNull.expires_at = none ∧
      fetchSharedAnalysis [sNull] [a5] "legacy" 9999999999999
        = ShareOutcome.success a5 := by
  constructor
  · rfl
  · decide

/-- C5 (amended): link creation itself always stamps a finite expiry of 30
days (handleShare never writes null), and resolution consults expires_at
against the current time on every call; but a share row stored with a null
expires_at is visible at every resolution time, that is, treated as valid
forever rather than given a finite default. -/
theorem share_null_forever_and_creation_default (s : ShareRow) (t : Int)
    (a : AnalysisRow) (now : Int) (rand : String)
    (hs : s.expires_at = none) :
    shareVisible t s = true ∧
      (handleShare a now rand []).1
        = [{ analysis_id := a.id, share_token := genToken a.id now rand,
             expires_at := some (now + 30 * msPerDay), created_at := now }] ∧
      (handleShare a now rand []).2 = some (genToken a.id now rand) := by
  refine ⟨?_, ?_, ?_⟩
  · unfold shareVisible
    rw [hs]
  · simp [handleShare]
  · simp [handleShare]

/-- C5 witness: the amended theorem at the concrete null-expiry row sNull
and a concrete creation call at time 7. -/
theorem share_null_forever_witness :
    sNull.expires_at = none ∧
      (shareVisible 123456789 sNull = true ∧
        (handleShare a5 7 "r" []).1
          = [{ analysis_id := a5.id, share_token := genToken a5.id 7 "r",
               expires_at := some (7 + 30 * msPerDay), created_at := 7 }] ∧
        (handleShare a5 7 "r" []).2 = some (genToken a5.id 7 "r")) :=
  ⟨rfl, share_null_forever_and_creation_default sNull 123456789 a5 7 "r" rfl⟩

/- ========================  C7  ======================== -/

/-- C7 counterexample: when the token handleShare generates already exists
in shared_analyses, the call fails (alert path) with the table unchanged:
no regenerated token, no bounded retries, no AllocationError — a single
attempt that gives up on collision. -/
theorem handleShare_collision_fails_no_retry :
    genToken a9.id 4 "zzz" = s7.share_token ∧
      handleShare a9 4 "zzz" [s7] = ([s7], none) := by
  decide

/-- C7 (amended): handleShare makes exactly one token-generation attempt
per call: either the generated token collides and the call fails leaving
the table unchanged, or exactly one row is appended carrying that token
and a 30-day expiry. The token is built from the analysis id, the
timestamp, and a Math.random suffix, not from a cryptographic source. -/
theorem handleShare_single_attempt (a : AnalysisRow) (now : Int) (rand : String)
    (shares : List ShareRow) :
    ((handleShare a now rand shares).1 = shares ∧
        (handleShare a now rand shares).2 = none) ∨
      ((handleShare a now rand shares).1
          = shares ++ [{ analysis_id := a.id,
                         share_token := genToken a.id now rand,
                         expires_at := some (now + 30 * msPerDay),
                         created_at := now }] ∧
        (handleShare a now rand shares).2 = some (genToken a.id now rand)) := by
  by_cases h : shares.any (fun s => s.share_token == genToken a.id now rand) = true
  · left
    simp [handleShare, h]
  · right
    simp [handleShare, h]

/- ========================  C8  ======================== -/

/-- Helper: .single() returning a row means the row was in the query result. -/
theorem singleRow_mem {α : Type} (xs : List α) (x : α)
    (h : singleRow xs = some x) : x ∈ xs := by
  cases xs with
  | nil => simp [singleRow] at h
  | cons y ys =>
    cases ys with
    | nil =>
      simp [singleRow] at h
      simp [h]
    | cons z zs => simp [singleRow] at h

/-- C8 counterexample: resolving a valid share returns the analysis row
with its user_id field populated (the page selects *), so the owner
identity is part of the resolved data rather than excluded. -/
theorem resolve_includes_owner_id :
    fetchSharedAnalysis [s8] [a5] "tok8" 10 = ShareOutcome.success a5 ∧
      a5.user_id = some 7 := by
  decide

/-- C8 (amended): resolution returns the stored analyses row verbatim
(select * with no projection): any successful resolve yields a row that is
literally a member of the analyses table, user_id included; only the page
template refrains from rendering the identity fields. -/
theorem resolve_returns_table_row (shares : List ShareRow)
    (analyses : List AnalysisRow) (tok : String) (now : Int) (a : AnalysisRow)
    (h : fetchSharedAnalysis shares analyses tok now = ShareOutcome.success a) :
    a ∈ analyses := by
  unfold fetchSharedAnalysis at h
  split at h
  · exact absurd h (by simp)
  · rename_i s hs
    split at h
    · exact absurd h (by simp)
    · split at h
      · exact absurd h (by simp)
      · rename_i a2 ha2
        have hax : a2 = a := by
          simpa using h
        subst hax
        have hmem := singleRow_mem _ _ ha2
        exact (List.mem_filter.mp hmem).1

/-- C8 witness: the membership theorem applied at the concrete valid share
for a5, whose resolution succeeds. -/
theorem resolve_returns_table_row_witness :
    fetchSharedAnalysis [s8] [a5] "tok8" 10 = ShareOutcome.success a5 ∧
      a5 ∈ [a5] :=
  ⟨by decide, resolve_returns_table_row [s8] [a5] "tok8" 10 a5 (by decide)⟩

/- ========================  C2  ======================== -/

/-- C2 counterexample: an authenticated admin whose id (1) differs from
the owner of row0 (2) is denied a record-scoped read by the policies in
the code, while the rule the claim states would permit it: the policies
never consult the role, so there is no admin override. -/
theorem permit_admin_read_denied :
    permit (Principal.authenticated 1 Role.admin) RecordAction.read row0 [] 0
        = false ∧
      permitSpecRule (Principal.authenticated 1 Role.admin) row0 = true := by
  decide

/-- C2 (amended): update and delete are permitted exactly for the
authenticated owner, with no role override of any kind: any authenticated
principal whose id differs from the owner — admins included — and any
anonymous principal is denied, while the owner is allowed under every
role; accordingly the deleteHistoryItem call of a non-owner removes
nothing. Read additionally admits anyone while a valid share exists. -/
theorem permit_delete_owner_only (i o : Nat) (r : Role) (x : AnalysisRow)
    (shares : List ShareRow) (now : Int)
    (hx : x.user_id = some o) (hio : i ≠ o) :
    permit (Principal.authenticated i r) RecordAction.delete x shares now = false ∧
      permit (Principal.authenticated i r) RecordAction.update x shares now = false ∧
      permit Principal.anonymous RecordAction.delete x shares now = false ∧
      permit (Principal.authenticated o r) RecordAction.delete x shares now = true ∧
      deleteHistoryItem (Principal.authenticated i r) x.id [x] = [x] := by
  have hbeq : (i == o) = false := by
    simp [hio]
  refine ⟨?_, ?_, ?_, ?_, ?_⟩
  · simp [permit, ownsVal, authUid, hx, hbeq]
  · simp [permit, ownsVal, authUid, hx, hbeq]
  · simp [permit, ownsVal, authUid]
  · simp [permit, ownsVal, authUid, hx]
  · simp [deleteHistoryItem, authUid, hx, Ne.symm hio]

/-- C2 witness: the owner-only rule applied with an admin principal of id
1 against a row owned by user 2 under an empty share table. -/
theorem permit_delete_owner_only_witness :
    row0.user_id = some 2 ∧ (1 : Nat) ≠ 2 ∧
      (permit (Principal.authenticated 1 Role.admin) RecordAction.delete row0 [] 0
          = false ∧
        permit (Principal.authenticated 1 Role.admin) RecordAction.update row0 [] 0
          = false ∧
        permit Principal.anonymous RecordAction.delete row0 [] 0 = false ∧
        permit (Principal.authenticated 2 Role.admin) RecordAction.delete row0 [] 0
          = true ∧
        deleteHistoryItem (Principal.authenticated 1 Role.admin) row0.id [row0]
          = [row0]) :=
  ⟨rfl, by decide,
   permit_delete_owner_only 1 2 Role.admin row0 [] 0 rfl (by decide)⟩

/- ========================  C9  ======================== -/

/-- C9 counterexample: the predictions row q0 is persisted with owner 3,
and the later operation of deleting user 3 clears its user_id to null
(foreign key ON DELETE SET NULL), so owner_id is neither immutable nor
kept non-null after creation. -/
theorem owner_id_cleared_on_user_delete :
    q0.user_id = some 3 ∧
      deleteUserPredictions 3 [q0] = [{ q0 with user_id := none }] ∧
      ({ q0 with user_id := none } : PredictionRow).user_id = none := by
  refine ⟨rfl, ?_, rfl⟩
  simp [deleteUserPredictions, q0]

/-- Helper: the SQL ownership check holds only when the principal is
authenticated and the column equals its id. -/
theorem ownsVal_some (p : Principal) (v : Option Nat)
    (h : ownsVal p v = true) : v = authUid p ∧ v ≠ none := by
  cases p with
  | anonymous => simp [ownsVal, authUid] at h
  | authenticated i r =>
    cases v with
    | none => simp [ownsVal, authUid] at h
    | some o =>
      simp only [ownsVal, authUid, beq_iff_eq] at h
      subst h
      simp [authUid]

/-- C9 (amended): through the RLS-guarded API the owner column does behave
as intended — an INSERT the policy admits carries a non-null user_id, and
an UPDATE the policy admits leaves user_id unchanged — but the schema
declares the column nullable and deleting a user sets the user_id of every
prediction row the user owned to null, so persistence does not make
owner_id immutable or permanently non-null. -/
theorem owner_id_rules (p : Principal) (oldRow newRow insRow : AnalysisRow)
    (q : PredictionRow) (uid : Nat)
    (hup : analysesUpdateAllowed p oldRow newRow = true)
    (hins : analysesInsertAllowed p insRow = true)
    (hq : q.user_id = some uid) :
    newRow.user_id = oldRow.user_id ∧ insRow.user_id ≠ none ∧
      deleteUserPredictions uid [q] = [{ q with user_id := none }] := by
  have hup2 := hup
  simp only [analysesUpdateAllowed, Bool.and_eq_true] at hup2
  have h1 := ownsVal_some p oldRow.user_id hup2.1
  have h2 := ownsVal_some p newRow.user_id hup2.2
  have h3 := ownsVal_some p insRow.user_id hins
  refine ⟨h2.1.trans h1.1.symm, h3.2, ?_⟩
  simp [deleteUserPredictions, hq]

/-- C9 witness: the amended rules applied to user 3 updating the row rW it
owns onto itself, inserting rW, and being deleted while owning q0. -/
theorem owner_id_rules_witness :
    analysesUpdateAllowed (Principal.authenticated 3 Role.user) rW rW = true ∧
      analysesInsertAllowed (Principal.authenticated 3 Role.user) rW = true ∧
      q0.user_id = some 3 ∧
      (rW.user_id = rW.user_id ∧ rW.user_id ≠ none ∧
        deleteUserPredictions 3 [q0] = [{ q0 with user_id := none }]) :=
  ⟨by decide, by decide, rfl,
   owner_id_rules (Principal.authenticated 3 Role.user) rW rW rW q0 3
     (by decide) (by decide) rfl⟩

end ZeaWatch
